import Mathlib

/-!
Verification of the CAN-ESP monitor-node firmware against its
natural-language specification.  Each C function relevant to a claim is
shallowly embedded as an executable Lean definition: machine integers
become Nat with explicit masking where the C code masks, buffers become
lists, fallible calls take Boolean oracles for their external
collaborators, and stateful modules become explicit state-passing
functions that also return the list of observable effects (callback
notifications, logger writes, file writes).
-/

/-! ## CAN transport: 29-bit identifier codec (can_esp_lib.c) -/

/-- Embedding of CAN_ESP_EncodeID: priority in bits 26-28, module in
bits 16-25, command in bits 0-15, combined by bitwise or. -/
def CAN_ESP_EncodeID (priority module command : Nat) : Nat :=
  ((priority &&& 0x07) <<< 26) ||| ((module &&& 0x03FF) <<< 16) ||| (command &&& 0xFFFF)

/-- Embedding of CAN_ESP_DecodeID: extracts (priority, module, command)
by shift and mask. -/
def CAN_ESP_DecodeID (id : Nat) : Nat × Nat × Nat :=
  ((id >>> 26) &&& 0x07, (id >>> 16) &&& 0x03FF, id &&& 0xFFFF)

lemma nat_and_7 (x : Nat) : x &&& 7 = x % 8 := by
  have h : (7 : Nat) = 2 ^ 3 - 1 := by norm_num
  rw [h, Nat.and_pow_two_sub_one_eq_mod]

lemma nat_and_1023 (x : Nat) : x &&& 1023 = x % 1024 := by
  have h : (1023 : Nat) = 2 ^ 10 - 1 := by norm_num
  rw [h, Nat.and_pow_two_sub_one_eq_mod]

lemma nat_and_65535 (x : Nat) : x &&& 65535 = x % 65536 := by
  have h : (65535 : Nat) = 2 ^ 16 - 1 := by norm_num
  rw [h, Nat.and_pow_two_sub_one_eq_mod]

lemma nat_and_536870911 (x : Nat) : x &&& 536870911 = x % 536870912 := by
  have h : (536870911 : Nat) = 2 ^ 29 - 1 := by norm_num
  rw [h, Nat.and_pow_two_sub_one_eq_mod]

/-- Bitwise or of a left-shifted value with a value fitting below the
shift is plain addition. -/
lemma shiftLeft_lor_eq_add (a b n : Nat) (hb : b < 2 ^ n) :
    (a <<< n) ||| b = a * 2 ^ n + b := by
  apply Nat.eq_of_testBit_eq
  intro j
  rcases Nat.lt_or_ge j n with h | h
  · have hdvd : 2 ^ (j + 1) ∣ a * 2 ^ n := by
      exact Dvd.dvd.mul_left (pow_dvd_pow 2 (by omega)) a
    have hmod : (a * 2 ^ n + b) % 2 ^ (j + 1) = b % 2 ^ (j + 1) := by
      obtain ⟨k, hk⟩ := hdvd
      rw [hk, Nat.mul_add_mod]
    have h1 : (a * 2 ^ n + b).testBit j = ((a * 2 ^ n + b) % 2 ^ (j + 1)).testBit j := by
      simp [Nat.testBit_mod_two_pow, Nat.lt_succ_self]
    have h2 : b.testBit j = (b % 2 ^ (j + 1)).testBit j := by
      simp [Nat.testBit_mod_two_pow, Nat.lt_succ_self]
    rw [Nat.testBit_or, Nat.testBit_shiftLeft, h1, hmod, ← h2]
    have : ¬ n ≤ j := by omega
    simp [this]
  · have hbj : b.testBit j = false :=
      Nat.testBit_lt_two_pow (lt_of_lt_of_le hb (Nat.pow_le_pow_right (by norm_num) h))
    have hdiv : (a * 2 ^ n + b) / 2 ^ n = a := by
      rw [Nat.mul_comm a, Nat.mul_add_div (Nat.two_pow_pos n), Nat.div_eq_of_lt hb,
        Nat.add_zero]
    have hj : j = n + (j - n) := by omega
    have h3 : (a * 2 ^ n + b).testBit j = ((a * 2 ^ n + b) >>> n).testBit (j - n) := by
      rw [Nat.testBit_shiftRight, ← hj]
    rw [Nat.testBit_or, Nat.testBit_shiftLeft, h3, Nat.shiftRight_eq_div_pow, hdiv, hbj,
      Bool.or_false]
    have : n ≤ j := h
    simp [this]

lemma CAN_ESP_EncodeID_eq_arith (p m c : Nat) :
    CAN_ESP_EncodeID p m c = p % 8 * 2 ^ 26 + (m % 1024 * 2 ^ 16 + c % 65536) := by
  unfold CAN_ESP_EncodeID
  rw [Nat.lor_assoc]
  rw [nat_and_7, nat_and_1023, nat_and_65535]
  rw [shiftLeft_lor_eq_add (m % 1024) (c % 65536) 16 (by omega)]
  rw [shiftLeft_lor_eq_add (p % 8) _ 26 ?hb]
  case hb =>
    have h1 : m % 1024 ≤ 1023 := by omega
    have h2 : c % 65536 ≤ 65535 := by omega
    calc m % 1024 * 2 ^ 16 + c % 65536 ≤ 1023 * 2 ^ 16 + 65535 := by
          exact Nat.add_le_add (Nat.mul_le_mul_right _ h1) h2
      _ < 2 ^ 26 := by norm_num

lemma CAN_ESP_DecodeID_eq_arith (id : Nat) :
    CAN_ESP_DecodeID id = (id / 2 ^ 26 % 8, id / 2 ^ 16 % 1024, id % 65536) := by
  unfold CAN_ESP_DecodeID
  rw [Nat.shiftRight_eq_div_pow, Nat.shiftRight_eq_div_pow, nat_and_7, nat_and_1023,
    nat_and_65535]

/-- Claim C5: decoding an encoded identifier recovers the masked triple
(p and 7, m and 0x3FF, c and 0xFFFF), and encoding the decoded triple of
any identifier recovers the identifier masked to its low 29 bits. -/
theorem canEsp_id_codec_roundtrip_c5 :
    (∀ p m c, CAN_ESP_DecodeID (CAN_ESP_EncodeID p m c) =
      (p &&& 0x07, m &&& 0x03FF, c &&& 0xFFFF)) ∧
    (∀ id, CAN_ESP_EncodeID ((CAN_ESP_DecodeID id).1) ((CAN_ESP_DecodeID id).2.1)
      ((CAN_ESP_DecodeID id).2.2) = id &&& 0x1FFFFFFF) := by
  constructor
  · intro p m c
    rw [CAN_ESP_EncodeID_eq_arith, CAN_ESP_DecodeID_eq_arith]
    rw [show (0x07 : Nat) = 7 from rfl, show (0x03FF : Nat) = 1023 from rfl,
      show (0xFFFF : Nat) = 65535 from rfl]
    rw [nat_and_7, nat_and_1023, nat_and_65535]
    refine Prod.ext ?_ (Prod.ext ?_ ?_) <;> simp only <;> omega
  · intro id
    rw [CAN_ESP_DecodeID_eq_arith]
    simp only
    rw [CAN_ESP_EncodeID_eq_arith,
      show (0x1FFFFFFF : Nat) = 536870911 from rfl, nat_and_536870911]
    omega

/-! ## CAN transport: optional checksum on send and receive (can_esp_lib.c) -/

def CAN_MAX_DATA_LENGTH : Nat := 8

/-- Status codes of the CAN library (can_esp_status_t). -/
inductive CanEspStatus where
  | ok
  | errNullPointer
  | errInvalidLength
  | errTransmit
  | errReceive
  | errDriverInstall
  | errDriverStart
  | errDriverStop
  | errDriverUninstall
  | errTimeout
  | errUnknown
deriving DecidableEq, Repr

/-- Embedding of CAN_ESP_CalculateChecksum: XOR of all payload bytes. -/
def CAN_ESP_CalculateChecksum (data : List Nat) : Nat :=
  data.foldl (fun cs b => cs ^^^ b) 0

/-- The on-wire TWAI frame handed to the driver: identifier plus the
data bytes covered by the data-length code. -/
structure TwaiMessage where
  identifier : Nat
  data : List Nat
deriving DecidableEq, Repr

/-- Embedding of CAN_ESP_SendMessage (a non-null data pointer is assumed,
the buffer being a Lean list). With checksum mode on and room left, the
XOR checksum is written after the payload and the data-length code grows
by one; a full 8-byte payload is rejected with an invalid-length error.
The returned frame is the one handed to twai_transmit. -/
def CAN_ESP_SendMessage (use_checksum : Bool) (id : Nat) (data : List Nat) :
    Except CanEspStatus TwaiMessage :=
  if data.length > CAN_MAX_DATA_LENGTH then Except.error CanEspStatus.errInvalidLength
  else if use_checksum then
    if data.length < CAN_MAX_DATA_LENGTH then
      Except.ok ⟨id, data ++ [CAN_ESP_CalculateChecksum data]⟩
    else Except.error CanEspStatus.errInvalidLength
  else Except.ok ⟨id, data⟩

/-- Embedding of CAN_ESP_ReceiveMessage on a frame the driver returned:
with checksum mode on, the XOR of all bytes but the last must equal the
last byte, the reported length is then reduced by one; otherwise the
call fails with a receive error. -/
def CAN_ESP_ReceiveMessage (use_checksum : Bool) (rx : TwaiMessage) :
    Except CanEspStatus (Nat × List Nat) :=
  if use_checksum then
    if rx.data.length < 1 then Except.error CanEspStatus.errReceive
    else
      let calc_cs := CAN_ESP_CalculateChecksum (rx.data.take (rx.data.length - 1))
      if calc_cs = rx.data.getD (rx.data.length - 1) 0 then
        Except.ok (rx.identifier, rx.data.take (rx.data.length - 1))
      else Except.error CanEspStatus.errReceive
  else Except.ok (rx.identifier, rx.data)

lemma foldl_xor_acc (l : List Nat) (a : Nat) :
    l.foldl (fun cs b => cs ^^^ b) a = a ^^^ l.foldl (fun cs b => cs ^^^ b) 0 := by
  induction l generalizing a with
  | nil => simp
  | cons x xs ih =>
    simp only [List.foldl_cons]
    rw [ih (a ^^^ x), ih (0 ^^^ x)]
    simp [Nat.xor_assoc]

lemma checksum_cons (x : Nat) (xs : List Nat) :
    CAN_ESP_CalculateChecksum (x :: xs) = x ^^^ CAN_ESP_CalculateChecksum xs := by
  unfold CAN_ESP_CalculateChecksum
  simp only [List.foldl_cons]
  rw [foldl_xor_acc]
  simp

lemma nat_xor_left_comm (a b c : Nat) : a ^^^ (b ^^^ c) = b ^^^ (a ^^^ c) := by
  rw [← Nat.xor_assoc, Nat.xor_comm a b, Nat.xor_assoc]

lemma checksum_set (d : List Nat) (i : Nat) (b : Nat) (h : i < d.length) :
    CAN_ESP_CalculateChecksum (d.set i b) =
      CAN_ESP_CalculateChecksum d ^^^ d.getD i 0 ^^^ b := by
  induction d generalizing i with
  | nil => simp at h
  | cons x xs ih =>
    cases i with
    | zero =>
      simp only [List.set_cons_zero, checksum_cons, List.getD_cons_zero]
      rw [Nat.xor_assoc, Nat.xor_comm x, Nat.xor_assoc, Nat.xor_cancel_left, Nat.xor_comm]
    | succ n =>
      have hn : n < xs.length := by simpa using h
      simp only [List.set_cons_succ, checksum_cons, List.getD_cons_succ]
      rw [ih n hn, Nat.xor_assoc, Nat.xor_assoc, Nat.xor_assoc]

lemma list_getD_append_length (l : List Nat) (x y : Nat) : (l ++ [x]).getD l.length y = x := by
  induction l with
  | nil => rfl
  | cons a as ih => simpa using ih

lemma list_take_append_length (l m : List Nat) : (l ++ m).take l.length = l := by
  induction l with
  | nil => simp
  | cons a as ih => simp [ih]

lemma list_set_append_lt (l m : List Nat) (i : Nat) (b : Nat) (h : i < l.length) :
    (l ++ m).set i b = l.set i b ++ m := by
  induction l generalizing i with
  | nil => simp at h
  | cons a as ih =>
    cases i with
    | zero => simp
    | succ n =>
      have hn : n < as.length := by simpa using h
      simp [ih n hn]

lemma list_set_append_length (l : List Nat) (x b : Nat) :
    (l ++ [x]).set l.length b = l ++ [b] := by
  induction l with
  | nil => rfl
  | cons a as ih => simpa using ih

lemma list_getD_append_lt (l m : List Nat) (i : Nat) (y : Nat) (h : i < l.length) :
    (l ++ m).getD i y = l.getD i y := by
  induction l generalizing i with
  | nil => simp at h
  | cons a as ih =>
    cases i with
    | zero => rfl
    | succ n =>
      have hn : n < as.length := by simpa using h
      simpa using ih n hn

/-- Claim C6: with checksum mode enabled, sending a payload of length
below 8 puts the XOR of its bytes as the last on-wire byte and receiving
that frame returns the payload unchanged (the reported length excluding
the checksum byte); any single-byte mutation of the on-wire frame makes
the receive fail with a receive error; and a payload already at the
8-byte limit is rejected with an invalid-length error. -/
theorem canEsp_checksum_roundtrip_c6 :
    (∀ id (d : List Nat), d.length < 8 →
      CAN_ESP_SendMessage true id d =
        Except.ok ⟨id, d ++ [CAN_ESP_CalculateChecksum d]⟩ ∧
      CAN_ESP_ReceiveMessage true ⟨id, d ++ [CAN_ESP_CalculateChecksum d]⟩ =
        Except.ok (id, d)) ∧
    (∀ id (d : List Nat) i b, d.length < 8 →
      i < (d ++ [CAN_ESP_CalculateChecksum d]).length →
      b ≠ (d ++ [CAN_ESP_CalculateChecksum d]).getD i 0 →
      CAN_ESP_ReceiveMessage true ⟨id, (d ++ [CAN_ESP_CalculateChecksum d]).set i b⟩ =
        Except.error CanEspStatus.errReceive) ∧
    (∀ id (d : List Nat), d.length = 8 →
      CAN_ESP_SendMessage true id d = Except.error CanEspStatus.errInvalidLength) := by
  refine ⟨?_, ?_, ?_⟩
  · intro id d hd
    constructor
    · unfold CAN_ESP_SendMessage
      have h1 : ¬ d.length > CAN_MAX_DATA_LENGTH := by
        unfold CAN_MAX_DATA_LENGTH; omega
      have h2 : d.length < CAN_MAX_DATA_LENGTH := by
        unfold CAN_MAX_DATA_LENGTH; omega
      simp [h1, h2]
    · unfold CAN_ESP_ReceiveMessage
      have hlen : (d ++ [CAN_ESP_CalculateChecksum d]).length = d.length + 1 := by simp
      have h1 : ¬ (d ++ [CAN_ESP_CalculateChecksum d]).length < 1 := by omega
      have h2 : (d ++ [CAN_ESP_CalculateChecksum d]).length - 1 = d.length := by omega
      simp only [h1, if_false, h2, list_take_append_length, list_getD_append_length,
        if_true, if_pos rfl]
  · intro id d i b hd hi hb
    rcases Nat.lt_or_ge i d.length with hlt | hge
    · -- a payload byte was mutated
      rw [list_set_append_lt _ _ _ _ hlt]
      unfold CAN_ESP_ReceiveMessage
      have hlen : (d.set i b ++ [CAN_ESP_CalculateChecksum d]).length = d.length + 1 := by simp
      have h1 : ¬ (d.set i b ++ [CAN_ESP_CalculateChecksum d]).length < 1 := by omega
      have h2 : (d.set i b ++ [CAN_ESP_CalculateChecksum d]).length - 1 = d.length := by omega
      have h3 : (d.set i b ++ [CAN_ESP_CalculateChecksum d]).take d.length = d.set i b := by
        have := list_take_append_length (d.set i b) [CAN_ESP_CalculateChecksum d]
        simpa using this
      have h4 : (d.set i b ++ [CAN_ESP_CalculateChecksum d]).getD d.length 0 =
          CAN_ESP_CalculateChecksum d := by
        have := list_getD_append_length (d.set i b) (CAN_ESP_CalculateChecksum d) 0
        simpa using this
      have hbd : b ≠ d.getD i 0 := by
        rw [list_getD_append_lt _ _ _ _ hlt] at hb
        exact hb
      have hne : CAN_ESP_CalculateChecksum (d.set i b) ≠ CAN_ESP_CalculateChecksum d := by
        rw [checksum_set d i b hlt]
        intro hcontra
        rw [Nat.xor_assoc] at hcontra
        have h0 : CAN_ESP_CalculateChecksum d ^^^ (d.getD i 0 ^^^ b) =
            CAN_ESP_CalculateChecksum d ^^^ 0 := by simpa using hcontra
        have := Nat.xor_right_injective h0
        exact hbd (Nat.xor_eq_zero.mp this).symm
      simp only [h1, if_false, h2, h3, h4]
      simp [hne]
    · -- the checksum byte was mutated
      have hieq : i = d.length := by
        have : (d ++ [CAN_ESP_CalculateChecksum d]).length = d.length + 1 := by simp
        omega
      subst hieq
      rw [list_set_append_length]
      unfold CAN_ESP_ReceiveMessage
      have h1 : ¬ (d ++ [b]).length < 1 := by simp
      have h2 : (d ++ [b]).length - 1 = d.length := by simp
      have h3 : (d ++ [b]).take d.length = d := list_take_append_length d [b]
      have h4 : (d ++ [b]).getD d.length 0 = b := list_getD_append_length d b 0
      have hbcs : b ≠ CAN_ESP_CalculateChecksum d := by
        rw [list_getD_append_length] at hb
        exact hb
      have hcd : ¬ CAN_ESP_CalculateChecksum d = b := fun h => hbcs h.symm
      simp only [h1, if_false, h2, h3, h4]
      simp [hcd]
  · intro id d hd
    unfold CAN_ESP_SendMessage
    have h1 : ¬ d.length > CAN_MAX_DATA_LENGTH := by
      unfold CAN_MAX_DATA_LENGTH; omega
    have h2 : ¬ d.length < CAN_MAX_DATA_LENGTH := by
      unfold CAN_MAX_DATA_LENGTH; omega
    simp [h1, h2]

/-- Concrete witness for claim C6 at payload [1, 2, 3]. -/
theorem canEsp_checksum_roundtrip_c6_witness :
    CAN_ESP_ReceiveMessage true ⟨5, [1, 2, 3] ++ [CAN_ESP_CalculateChecksum [1, 2, 3]]⟩ =
      Except.ok (5, [1, 2, 3]) ∧
    CAN_ESP_ReceiveMessage true
        ⟨5, ([1, 2, 3] ++ [CAN_ESP_CalculateChecksum [1, 2, 3]]).set 1 9⟩ =
      Except.error CanEspStatus.errReceive ∧
    CAN_ESP_SendMessage true 5 [0, 1, 2, 3, 4, 5, 6, 7] =
      Except.error CanEspStatus.errInvalidLength :=
  ⟨(canEsp_checksum_roundtrip_c6.1 5 [1, 2, 3] (by decide)).2,
   canEsp_checksum_roundtrip_c6.2.1 5 [1, 2, 3] 1 9 (by decide) (by decide) (by decide),
   canEsp_checksum_roundtrip_c6.2.2 5 [0, 1, 2, 3, 4, 5, 6, 7] (by decide)⟩

/-! ## OTA orchestrator: firmware segmentation (ota_module.c) -/

def OTA_PACKET_SIZE : Nat := 1024

/-- Size stored in segment descriptor i by ota_module_segment_firmware:
a full packet while at least OTA_PACKET_SIZE bytes remain, the remainder
otherwise. -/
def otaSegmentSize (firmware_size i : Nat) : Nat :=
  if firmware_size - i * OTA_PACKET_SIZE ≥ OTA_PACKET_SIZE then OTA_PACKET_SIZE
  else firmware_size - i * OTA_PACKET_SIZE

/-- The slice of the firmware buffer denoted by segment descriptor i:
its data pointer is firmware_data + i * OTA_PACKET_SIZE and its size is
otaSegmentSize. -/
def otaSegment (firmware_data : List Nat) (firmware_size i : Nat) : List Nat :=
  (firmware_data.drop (i * OTA_PACKET_SIZE)).take (otaSegmentSize firmware_size i)

/-- Embedding of ota_module_segment_firmware: rejects a null buffer or a
zero size, otherwise builds (firmware_size + OTA_PACKET_SIZE - 1) /
OTA_PACKET_SIZE segment descriptors into the buffer. -/
def ota_module_segment_firmware (firmware_data : Option (List Nat)) (firmware_size : Nat) :
    Option (List (List Nat)) :=
  match firmware_data with
  | none => none
  | some data =>
    if firmware_size = 0 then none
    else
      let num_segments := (firmware_size + OTA_PACKET_SIZE - 1) / OTA_PACKET_SIZE
      some ((List.range num_segments).map fun i => otaSegment data firmware_size i)

lemma ota_chunk_flatten (fuel : Nat) : ∀ (data : List Nat), data.length ≤ fuel →
    ((List.range ((data.length + OTA_PACKET_SIZE - 1) / OTA_PACKET_SIZE)).map
      (fun i => otaSegment data data.length i)).flatten = data := by
  induction fuel with
  | zero =>
    intro data h
    have hnil : data = [] := List.eq_nil_of_length_eq_zero (by omega)
    subst hnil
    simp [OTA_PACKET_SIZE]
  | succ n ih =>
    intro data h
    by_cases hle : data.length ≤ OTA_PACKET_SIZE
    · by_cases h0 : data.length = 0
      · have hnil : data = [] := List.eq_nil_of_length_eq_zero h0
        subst hnil
        simp [OTA_PACKET_SIZE]
      · have hnum : (data.length + OTA_PACKET_SIZE - 1) / OTA_PACKET_SIZE = 1 := by
          unfold OTA_PACKET_SIZE at *
          omega
        rw [hnum]
        have hseg : otaSegment data data.length 0 = data := by
          unfold otaSegment otaSegmentSize
          simp only [Nat.zero_mul, Nat.sub_zero, List.drop_zero]
          split
          · exact List.take_of_length_le (by unfold OTA_PACKET_SIZE at *; omega)
          · exact List.take_length data
        have hr1 : List.range 1 = [0] := rfl
        rw [hr1, List.map_cons, List.map_nil, List.flatten_cons, List.flatten_nil,
          List.append_nil]
        exact hseg
    · push_neg at hle
      have hlen1024 : (data.drop OTA_PACKET_SIZE).length = data.length - OTA_PACKET_SIZE := by
        simp
      have hnum : (data.length + OTA_PACKET_SIZE - 1) / OTA_PACKET_SIZE =
          (((data.drop OTA_PACKET_SIZE).length + OTA_PACKET_SIZE - 1) / OTA_PACKET_SIZE) + 1 := by
        rw [hlen1024]
        unfold OTA_PACKET_SIZE at *
        omega
      have hhead : otaSegment data data.length 0 = data.take OTA_PACKET_SIZE := by
        unfold otaSegment otaSegmentSize
        have hc : data.length - 0 * OTA_PACKET_SIZE ≥ OTA_PACKET_SIZE := by omega
        rw [if_pos hc, Nat.zero_mul, List.drop_zero]
      have htail : ∀ i, otaSegment data data.length (Nat.succ i) =
          otaSegment (data.drop OTA_PACKET_SIZE) (data.drop OTA_PACKET_SIZE).length i := by
        intro i
        unfold otaSegment otaSegmentSize
        rw [hlen1024, List.drop_drop, Nat.sub_sub]
        have e : Nat.succ i * OTA_PACKET_SIZE = OTA_PACKET_SIZE + i * OTA_PACKET_SIZE := by
          rw [Nat.succ_mul, Nat.add_comm]
        rw [e]
      have ihd := ih (data.drop OTA_PACKET_SIZE)
        (by rw [hlen1024]; unfold OTA_PACKET_SIZE at *; omega)
      rw [hnum, List.range_succ_eq_map, List.map_cons, List.map_map, List.flatten_cons]
      have hmap : (List.range (((data.drop OTA_PACKET_SIZE).length + OTA_PACKET_SIZE - 1) /
            OTA_PACKET_SIZE)).map ((fun i => otaSegment data data.length i) ∘ Nat.succ) =
          (List.range (((data.drop OTA_PACKET_SIZE).length + OTA_PACKET_SIZE - 1) /
            OTA_PACKET_SIZE)).map
            (fun i => otaSegment (data.drop OTA_PACKET_SIZE)
              (data.drop OTA_PACKET_SIZE).length i) :=
        List.map_congr_left (fun i _ => htail i)
      rw [hmap, ihd]
      show otaSegment data data.length 0 ++ data.drop OTA_PACKET_SIZE = data
      rw [hhead, List.take_append_drop]

lemma ota_segment_lengths (data : List Nat) (i : Nat)
    (hi : i < (data.length + OTA_PACKET_SIZE - 1) / OTA_PACKET_SIZE) :
    (otaSegment data data.length i).length =
      if i + 1 < (data.length + OTA_PACKET_SIZE - 1) / OTA_PACKET_SIZE then OTA_PACKET_SIZE
      else data.length - i * OTA_PACKET_SIZE := by
  unfold otaSegment otaSegmentSize OTA_PACKET_SIZE at *
  simp only [List.length_take, List.length_drop]
  split
  · split
    · omega
    · omega
  · split
    · omega
    · omega

/-- Claim C7: for a non-null buffer of positive size, segmentation
produces exactly the ceiling of size over 1024 descriptors pointing into
the buffer, every one of size 1024 except the last which carries the
remainder, and concatenating the segment slices in order restores the
buffer; a null buffer or a zero size yields no segments. -/
theorem ota_segment_firmware_spec_c7 :
    (∀ (data : List Nat), data ≠ [] →
      ∃ segs, ota_module_segment_firmware (some data) data.length = some segs ∧
        segs.length = (data.length + OTA_PACKET_SIZE - 1) / OTA_PACKET_SIZE ∧
        segs.map List.length = (List.range segs.length).map
          (fun i => if i + 1 < segs.length then OTA_PACKET_SIZE
                    else data.length - i * OTA_PACKET_SIZE) ∧
        segs.flatten = data) ∧
    (∀ size, ota_module_segment_firmware none size = none) ∧
    (∀ data, ota_module_segment_firmware (some data) 0 = none) := by
  refine ⟨?_, fun size => rfl, fun data => by unfold ota_module_segment_firmware; simp⟩
  intro data hne
  have h0 : data.length ≠ 0 := fun h => hne (List.eq_nil_of_length_eq_zero h)
  refine ⟨(List.range ((data.length + OTA_PACKET_SIZE - 1) / OTA_PACKET_SIZE)).map
    (fun i => otaSegment data data.length i), ?_, ?_, ?_, ?_⟩
  · unfold ota_module_segment_firmware
    simp [h0]
  · simp
  · simp only [List.map_map, List.length_map, List.length_range]
    refine List.map_congr_left ?_
    intro i hi
    have hilt : i < (data.length + OTA_PACKET_SIZE - 1) / OTA_PACKET_SIZE :=
      List.mem_range.mp hi
    simpa using ota_segment_lengths data i hilt
  · exact ota_chunk_flatten data.length data (Nat.le_refl _)

/-- Concrete witness for claim C7 on a 2500-byte firmware image, which
segments into 1024 + 1024 + 452 bytes. -/
theorem ota_segment_firmware_spec_c7_witness :
    ∃ segs, ota_module_segment_firmware (some (List.replicate 2500 7))
        (List.replicate 2500 7).length = some segs ∧
      segs.length = ((List.replicate 2500 7).length + OTA_PACKET_SIZE - 1) / OTA_PACKET_SIZE ∧
      segs.map List.length = (List.range segs.length).map
        (fun i => if i + 1 < segs.length then OTA_PACKET_SIZE
                  else (List.replicate 2500 7).length - i * OTA_PACKET_SIZE) ∧
      segs.flatten = List.replicate 2500 7 :=
  ota_segment_firmware_spec_c7.1 (List.replicate 2500 7) (by
    have h : (List.replicate 2500 (7 : Nat)).length = 2500 := List.length_replicate 2500 7
    intro hc
    rw [hc] at h
    simp at h)

/-! ## Routing layer (routing_module.c)

Identifiers are the 32-byte character buffers of the C code, modelled as
character lists compared for equality (strncmp over the whole buffer) or
for substring containment (strstr).  Callback notifications are returned
as lists of event codes where a claim observes them. -/

def MAX_ROUTING_TABLE_ENTRIES : Nat := 16

def ROUTING_EVENT_TABLE_UPDATED : Nat := 0
def ROUTING_EVENT_NEIGHBOR_TABLE_UPDATED : Nat := 1
def ROUTING_EVENT_ROUTE_FAILURE : Nat := 2
def ROUTING_EVENT_MESSAGE_RECEIVED : Nat := 3

def ROUTING_MODE_UNICAST : Nat := 0
def ROUTING_MODE_MULTICAST : Nat := 1
def ROUTING_MODE_BROADCAST : Nat := 2

/-- A routing table entry (routing_table_entry_t). -/
structure RoutingTableEntry where
  dest_id : List Char
  next_hop : List Char
  cost : Nat
  timestamp : Nat
deriving DecidableEq, Repr

/-- The routing table: the first count slots of the entries array, in
order. -/
abbrev RoutingTable := List RoutingTableEntry

/-- Embedding of routing_module_insert_route (entry assumed non-null):
scan for an existing entry with the same dest_id and reject, reject when
the table is full, otherwise append at position count. -/
def routing_module_insert_route (table : RoutingTable) (entry : RoutingTableEntry) :
    Bool × RoutingTable :=
  if table.any (fun e => e.dest_id == entry.dest_id) then (false, table)
  else if MAX_ROUTING_TABLE_ENTRIES ≤ table.length then (false, table)
  else (true, table ++ [entry])

/-- Scan of routing_module_update_route: the first entry whose dest_id
matches is overwritten in place and the scan stops. -/
def updateRouteScan : RoutingTable → RoutingTableEntry → Option RoutingTable
  | [], _ => none
  | e :: rest, entry =>
    if e.dest_id == entry.dest_id then some (entry :: rest)
    else (updateRouteScan rest entry).map (fun t => e :: t)

/-- Embedding of routing_module_update_route (entry assumed non-null). -/
def routing_module_update_route (table : RoutingTable) (entry : RoutingTableEntry) :
    Bool × RoutingTable :=
  match updateRouteScan table entry with
  | some t => (true, t)
  | none => (false, table)

/-- Scan of routing_module_remove_route: the first entry whose dest_id
matches is removed, later entries shift left one slot. -/
def removeRouteScan : RoutingTable → List Char → Option RoutingTable
  | [], _ => none
  | e :: rest, dest =>
    if e.dest_id == dest then some rest
    else (removeRouteScan rest dest).map (fun t => e :: t)

/-- Embedding of routing_module_remove_route (dest assumed non-null). -/
def routing_module_remove_route (table : RoutingTable) (dest_id : List Char) :
    Bool × RoutingTable :=
  match removeRouteScan table dest_id with
  | some t => (true, t)
  | none => (false, table)

/-- One mutation of the routing table through the public API. -/
inductive RoutingOp where
  | insert (entry : RoutingTableEntry)
  | update (entry : RoutingTableEntry)
  | remove (dest_id : List Char)
deriving Repr

def applyRoutingOp (table : RoutingTable) : RoutingOp → RoutingTable
  | RoutingOp.insert e => (routing_module_insert_route table e).2
  | RoutingOp.update e => (routing_module_update_route table e).2
  | RoutingOp.remove d => (routing_module_remove_route table d).2

/-- The routing table reached from the initially empty table by a
sequence of insert, update and remove calls. -/
def applyRoutingOps (ops : List RoutingOp) : RoutingTable :=
  ops.foldl applyRoutingOp []

lemma insert_route_preserves_nodup (table : RoutingTable) (entry : RoutingTableEntry)
    (h : (table.map (fun e => e.dest_id)).Nodup) :
    (((routing_module_insert_route table entry).2).map (fun e => e.dest_id)).Nodup := by
  unfold routing_module_insert_route
  by_cases hdup : table.any (fun e => e.dest_id == entry.dest_id) = true
  · rw [if_pos hdup]
    exact h
  · rw [if_neg hdup]
    by_cases hcap : MAX_ROUTING_TABLE_ENTRIES ≤ table.length
    · rw [if_pos hcap]
      exact h
    · rw [if_neg hcap]
      show ((table ++ [entry]).map (fun e => e.dest_id)).Nodup
      rw [List.map_append, List.nodup_append]
      refine ⟨h, List.nodup_singleton _, ?_⟩
      intro x hx hmem
      have hxe : x = entry.dest_id := by simpa using hmem
      subst hxe
      obtain ⟨e, he, heq⟩ := List.mem_map.mp hx
      have hall : ∀ e ∈ table, ¬ (e.dest_id == entry.dest_id) = true := by
        simpa [List.any_eq_true] using hdup
      exact hall e he (by simp [heq])

lemma updateRouteScan_keys (entry : RoutingTableEntry) :
    ∀ (table t : RoutingTable), updateRouteScan table entry = some t →
      t.map (fun e => e.dest_id) = table.map (fun e => e.dest_id) := by
  intro table
  induction table with
  | nil => intro t h; simp [updateRouteScan] at h
  | cons e rest ih =>
    intro t h
    unfold updateRouteScan at h
    by_cases hm : (e.dest_id == entry.dest_id) = true
    · rw [if_pos hm] at h
      have ht : entry :: rest = t := by simpa using h
      subst ht
      have hde : entry.dest_id = e.dest_id := (eq_of_beq hm).symm
      simp [hde]
    · rw [if_neg hm] at h
      obtain ⟨t2, ht2, rfl⟩ := Option.map_eq_some'.mp h
      simp [ih t2 ht2]

lemma removeRouteScan_sublist (dest : List Char) :
    ∀ (table t : RoutingTable), removeRouteScan table dest = some t → t.Sublist table := by
  intro table
  induction table with
  | nil => intro t h; simp [removeRouteScan] at h
  | cons e rest ih =>
    intro t h
    unfold removeRouteScan at h
    by_cases hm : (e.dest_id == dest) = true
    · rw [if_pos hm] at h
      have ht : rest = t := by simpa using h
      subst ht
      exact List.sublist_cons_self e rest
    · rw [if_neg hm] at h
      obtain ⟨t2, ht2, rfl⟩ := Option.map_eq_some'.mp h
      exact List.Sublist.cons₂ e (ih t2 ht2)

lemma applyRoutingOp_preserves_nodup (table : RoutingTable) (op : RoutingOp)
    (h : (table.map (fun e => e.dest_id)).Nodup) :
    ((applyRoutingOp table op).map (fun e => e.dest_id)).Nodup := by
  cases op with
  | insert e => exact insert_route_preserves_nodup table e h
  | update e =>
    show (((routing_module_update_route table e).2).map (fun x => x.dest_id)).Nodup
    unfold routing_module_update_route
    cases hscan : updateRouteScan table e with
    | none => exact h
    | some t =>
      show (t.map (fun x => x.dest_id)).Nodup
      rw [updateRouteScan_keys e table t hscan]
      exact h
  | remove d =>
    show (((routing_module_remove_route table d).2).map (fun x => x.dest_id)).Nodup
    unfold routing_module_remove_route
    cases hscan : removeRouteScan table d with
    | none => exact h
    | some t =>
      show (t.map (fun x => x.dest_id)).Nodup
      exact List.Sublist.nodup
        (List.Sublist.map _ (removeRouteScan_sublist d table t hscan)) h

lemma foldl_applyRoutingOp_nodup (ops : List RoutingOp) :
    ∀ table : RoutingTable, (table.map (fun e => e.dest_id)).Nodup →
      ((ops.foldl applyRoutingOp table).map (fun e => e.dest_id)).Nodup := by
  induction ops with
  | nil => intro table h; simpa using h
  | cons op rest ih =>
    intro table h
    rw [List.foldl_cons]
    exact ih _ (applyRoutingOp_preserves_nodup table op h)

/-- Claim C8: after any sequence of insert, update and remove calls on
the initially empty routing table, no two entries share a dest_id; and
an insertion whose dest_id already exists returns false and leaves the
table unchanged. -/
theorem routing_table_no_duplicate_dest_c8 :
    (∀ ops : List RoutingOp, ((applyRoutingOps ops).map (fun e => e.dest_id)).Nodup) ∧
    (∀ (table : RoutingTable) (entry : RoutingTableEntry),
      table.any (fun e => e.dest_id == entry.dest_id) = true →
      routing_module_insert_route table entry = (false, table)) := by
  constructor
  · intro ops
    exact foldl_applyRoutingOp_nodup ops [] (by simp)
  · intro table entry h
    unfold routing_module_insert_route
    rw [if_pos h]

/-- Concrete witness for claim C8: two distinct inserts keep distinct
keys, and re-inserting an existing destination is rejected without
change. -/
theorem routing_table_no_duplicate_dest_c8_witness :
    ((applyRoutingOps [RoutingOp.insert ⟨['a'], ['a'], 1, 0⟩,
        RoutingOp.insert ⟨['b'], ['b'], 1, 0⟩]).map (fun e => e.dest_id)).Nodup ∧
    routing_module_insert_route [⟨['a'], ['a'], 1, 0⟩] ⟨['a'], ['n'], 2, 5⟩ =
      (false, [⟨['a'], ['a'], 1, 0⟩]) :=
  ⟨routing_table_no_duplicate_dest_c8.1 _,
   routing_table_no_duplicate_dest_c8.2 [⟨['a'], ['a'], 1, 0⟩] ⟨['a'], ['n'], 2, 5⟩
     (by decide)⟩

/-! ## Routing layer: configuration persistence (routing_module.c) -/

/-- The routing configuration knobs (routing_config_t). -/
structure RoutingConfig where
  default_cost : Nat
  retry_count : Nat
  retry_delay_ms : Nat
deriving DecidableEq, Repr

/-- Embedding of routing_module_save_config: under the file lock, open
config.ini for writing (fopen_ok is the oracle for that external call),
write the three routing keys, and report success; on open failure
nothing is written and false is returned. -/
def routing_module_save_config (fopen_ok : Bool) (cfg : RoutingConfig) :
    Bool × Option (List (String × Nat)) :=
  if fopen_ok then
    (true, some [("ROUTING_DEFAULT_COST", cfg.default_cost),
                 ("ROUTING_RETRY_COUNT", cfg.retry_count),
                 ("ROUTING_RETRY_DELAY_MS", cfg.retry_delay_ms)])
  else (false, none)

/-- Embedding of routing_module_set_config on a non-null configuration:
the in-memory configuration is overwritten field by field under the
config mutex, then routing_module_save_config is called with its result
cast to void, and true is returned unconditionally.  The second
component is the new in-memory state, the third what reached the file. -/
def routing_module_set_config (fopen_ok : Bool) (old config : RoutingConfig) :
    Bool × RoutingConfig × Option (List (String × Nat)) :=
  let updated : RoutingConfig :=
    { old with default_cost := config.default_cost, retry_count := config.retry_count,
               retry_delay_ms := config.retry_delay_ms }
  let saved := routing_module_save_config fopen_ok updated
  (true, updated, saved.2)

/-- Claim C3 fails on the code: routing_module_set_config discards the
result of routing_module_save_config and returns true even when the
config.ini write fails, although save_config itself reports the failure;
the in-memory state is updated in every case.  This contradicts both the
claim and the function doc comment, which promises false unless the
configuration was updated and saved. -/
theorem routing_set_config_ignores_write_failure_c3 :
    ∀ old config : RoutingConfig,
      (routing_module_save_config false config).1 = false ∧
      routing_module_set_config false old config =
        (true, ⟨config.default_cost, config.retry_count, config.retry_delay_ms⟩, none) := by
  intro old config
  exact ⟨rfl, rfl⟩

/-! ## Routing layer: send task dispatch (routing_module.c) -/

/-- An item of the send queue (routing_send_message_item_t). -/
structure RoutingSendItem where
  dest_id : List Char
  data : List Nat
  length : Nat
  mode : Nat
deriving DecidableEq, Repr

/-- Embedding of routing_module_recalculate_routes: the routing table is
rebuilt with one entry per neighbour (dest and next hop both the
neighbour id, default cost, current tick), truncated at capacity; a
TABLE_UPDATED event is notified. -/
def routing_module_recalculate_routes (cfg : RoutingConfig)
    (neighbor_ids : List (List Char)) (tick : Nat) : RoutingTable × List Nat :=
  ((neighbor_ids.take MAX_ROUTING_TABLE_ENTRIES).map
      (fun nid => ⟨nid, nid, cfg.default_cost, tick⟩),
   [ROUTING_EVENT_TABLE_UPDATED])

/-- The unicast fallback loop of the send task: while the destination is
not found and attempts remain, wait retry_delay_ms, recalculate routes
and search again.  Returns the table, whether a route was found, and the
events notified by the recalculations. -/
def unicastRetryLoop (cfg : RoutingConfig) (neighbor_ids : List (List Char)) (tick : Nat)
    (dest : List Char) : Nat → RoutingTable → RoutingTable × Bool × List Nat
  | 0, table => (table, false, [])
  | Nat.succ n, table =>
    let recalced := routing_module_recalculate_routes cfg neighbor_ids tick
    if recalced.1.any (fun e => e.dest_id == dest) then (recalced.1, true, recalced.2)
    else
      let rest := unicastRetryLoop cfg neighbor_ids tick dest n recalced.1
      (rest.1, rest.2.1, recalced.2 ++ rest.2.2)

/-- Embedding of one iteration of routing_module_send_task on a dequeued
item.  Unicast looks the destination up and falls back to the retry
loop, notifying ROUTE_FAILURE and dropping the message on persistent
miss; multicast counts entries whose dest_id contains the group id as a
substring and notifies ROUTE_FAILURE when none matches; broadcast logs
and proceeds; an invalid mode only logs.  The result is the routing
table after the iteration and the list of notified event codes. -/
def routing_module_send_task_item (cfg : RoutingConfig) (neighbor_ids : List (List Char))
    (tick : Nat) (table : RoutingTable) (item : RoutingSendItem) :
    RoutingTable × List Nat :=
  if item.mode = ROUTING_MODE_UNICAST then
    if table.any (fun e => e.dest_id == item.dest_id) then (table, [])
    else
      let loop := unicastRetryLoop cfg neighbor_ids tick item.dest_id cfg.retry_count table
      if loop.2.1 then (loop.1, loop.2.2)
      else (loop.1, loop.2.2 ++ [ROUTING_EVENT_ROUTE_FAILURE])
  else if item.mode = ROUTING_MODE_MULTICAST then
    let count := table.countP (fun e => decide (item.dest_id <:+: e.dest_id))
    if count = 0 then (table, [ROUTING_EVENT_ROUTE_FAILURE])
    else (table, [])
  else if item.mode = ROUTING_MODE_BROADCAST then
    (table, [])
  else (table, [])

/-- Counterexample to claim C9 as stated: with an empty neighbour table
the send task processes a broadcast item without notifying any
ROUTE_FAILURE event. -/
theorem routing_broadcast_c9_counterexample :
    ¬ ROUTING_EVENT_ROUTE_FAILURE ∈ (routing_module_send_task_item ⟨1, 3, 500⟩ [] 0 []
      ⟨['E'], [1], 1, ROUTING_MODE_BROADCAST⟩).2 := by
  decide

/-- Claim C9 amended: the send task dispatches a broadcast item
unconditionally: it never consults the neighbour table and never
notifies ROUTE_FAILURE for broadcast, with or without neighbours (so a
broadcast with at least one neighbour indeed proceeds without failure,
but so does one with none). -/
theorem routing_broadcast_no_failure_c9 :
    ∀ (cfg : RoutingConfig) (neighbor_ids : List (List Char)) (tick : Nat)
      (table : RoutingTable) (item : RoutingSendItem),
      item.mode = ROUTING_MODE_BROADCAST →
      routing_module_send_task_item cfg neighbor_ids tick table item = (table, []) := by
  intro cfg neighbor_ids tick table item h
  unfold routing_module_send_task_item
  rw [h]
  simp [ROUTING_MODE_UNICAST, ROUTING_MODE_MULTICAST, ROUTING_MODE_BROADCAST]

/-- Concrete witness for the amended claim C9: a broadcast item with one
neighbour present is dispatched with no failure event. -/
theorem routing_broadcast_no_failure_c9_witness :
    routing_module_send_task_item ⟨1, 3, 500⟩ [['N']] 0 []
      ⟨['E'], [1], 1, ROUTING_MODE_BROADCAST⟩ = ([], []) :=
  routing_broadcast_no_failure_c9 ⟨1, 3, 500⟩ [['N']] 0 []
    ⟨['E'], [1], 1, ROUTING_MODE_BROADCAST⟩ rfl

/-! ## OTA orchestrator: state machine and configuration (ota_module.c)

External collaborators (MQTT download, SD card reads, the esp_ota
partition API, config.ini writes) enter as Boolean or Option oracles.
Each operation returns its C result together with the new OTA context
and the list of (status, ecu) pairs handed to the notification
callbacks. -/

/-- ota_status_t. -/
inductive OtaStatus where
  | idle
  | update_available
  | downloading
  | distributing
  | applying
  | success
  | failure
  | rollback
deriving DecidableEq, Repr

/-- The OTA configuration (ota_config_t): installed firmware version and
MQTT topic per ECU, plus the check interval. -/
structure OtaConfig where
  firmware_version_monitor : Nat
  firmware_version_acceleration : Nat
  firmware_version_steering : Nat
  firmware_version_motor : Nat
  firmware_version_brake : Nat
  topic_monitor : String
  topic_acceleration : String
  topic_steering : String
  topic_motor : String
  topic_brake : String
  check_interval_ms : Nat
deriving DecidableEq, Repr

/-- The static initializer of ota_config in ota_module.c. -/
def otaDefaultConfig : OtaConfig :=
  ⟨1, 1, 1, 1, 1,
   "can-esp/firmware/update/monitor_ecu",
   "can-esp/firmware/update/acceleration_control_ecu",
   "can-esp/firmware/update/steering_control_ecu",
   "can-esp/firmware/update/motor_control_ecu",
   "can-esp/firmware/update/brake_control_ecu",
   60000⟩

/-- The OTA context (ota_module_context_t); the callback array is
modelled by returning notification lists from each operation. -/
structure OtaContext where
  status : OtaStatus
  current_ecu : String
  firmware_size : Nat
  firmware_data : Option (List Nat)
  update_in_progress : Bool
deriving DecidableEq, Repr

/-- The installed-version selection chain shared by
ota_module_check_version; an unknown ECU id yields none. -/
def otaInstalledVersion (cfg : OtaConfig) (ecu_id : String) : Option Nat :=
  if ecu_id = "monitor_ecu" then some cfg.firmware_version_monitor
  else if ecu_id = "acceleration_control_ecu" then some cfg.firmware_version_acceleration
  else if ecu_id = "steering_control_ecu" then some cfg.firmware_version_steering
  else if ecu_id = "motor_control_ecu" then some cfg.firmware_version_motor
  else if ecu_id = "brake_control_ecu" then some cfg.firmware_version_brake
  else none

/-- The topic, version and canonical firmware filename selection chain
of ota_module_download_firmware; an unknown ECU id yields none. -/
def otaResolveEcu (cfg : OtaConfig) (ecu_id : String) : Option (String × Nat × String) :=
  if ecu_id = "monitor_ecu" then
    some (cfg.topic_monitor, cfg.firmware_version_monitor,
      "firmware_monitor_ecu_v" ++ toString cfg.firmware_version_monitor ++ ".bin")
  else if ecu_id = "acceleration_control_ecu" then
    some (cfg.topic_acceleration, cfg.firmware_version_acceleration,
      "firmware_acceleration_control_ecu_v" ++
        toString cfg.firmware_version_acceleration ++ ".bin")
  else if ecu_id = "steering_control_ecu" then
    some (cfg.topic_steering, cfg.firmware_version_steering,
      "firmware_steering_control_ecu_v" ++ toString cfg.firmware_version_steering ++ ".bin")
  else if ecu_id = "motor_control_ecu" then
    some (cfg.topic_motor, cfg.firmware_version_motor,
      "firmware_motor_control_ecu_v" ++ toString cfg.firmware_version_motor ++ ".bin")
  else if ecu_id = "brake_control_ecu" then
    some (cfg.topic_brake, cfg.firmware_version_brake,
      "firmware_brake_control_ecu_v" ++ toString cfg.firmware_version_brake ++ ".bin")
  else none

/-- Embedding of ota_module_check_version (ecu_id assumed non-null):
when the available version is strictly greater than the installed one,
the status becomes UPDATE_AVAILABLE, the ECU id is recorded and the
subscribers are notified; nothing is recorded about the available
version itself. -/
def ota_module_check_version (cfg : OtaConfig) (ctx : OtaContext) (ecu_id : String)
    (available_version : Nat) : Bool × OtaContext × List (OtaStatus × String) :=
  match otaInstalledVersion cfg ecu_id with
  | none => (false, ctx, [])
  | some installed_version =>
    if installed_version < available_version then
      ((true : Bool),
       { ctx with status := OtaStatus.update_available, current_ecu := ecu_id },
       [(OtaStatus.update_available, ecu_id)])
    else (false, ctx, [])

/-- Embedding of ota_module_check_update: poll the MQTT collaborator for
an advertised version on the monitor topic (the oracle), then defer to
ota_module_check_version for monitor_ecu. -/
def ota_module_check_update (cfg : OtaConfig) (ctx : OtaContext)
    (mqtt_version : Option Nat) : Bool × OtaContext × List (OtaStatus × String) :=
  match mqtt_version with
  | none => (false, ctx, [])
  | some available_version => ota_module_check_version cfg ctx "monitor_ecu" available_version

/-- Embedding of ota_module_download_firmware (ecu_id assumed non-null).
Refuses only when update_in_progress is already set.  Otherwise marks
the update in progress, enters DOWNLOADING and notifies, resolves the
ECU, downloads (oracle download_ok) and loads the file from the SD card
(oracle sd_file); every failure clears update_in_progress, and the
download or load failures additionally set FAILURE and notify. -/
def ota_module_download_firmware (cfg : OtaConfig) (ctx : OtaContext) (ecu_id : String)
    (download_ok : Bool) (sd_file : Option (List Nat)) :
    Bool × OtaContext × List (OtaStatus × String) :=
  if ctx.update_in_progress then (false, ctx, [])
  else
    let ctx1 := { ctx with update_in_progress := true, status := OtaStatus.downloading }
    match otaResolveEcu cfg ecu_id with
    | none => (false, { ctx1 with update_in_progress := false },
               [(OtaStatus.downloading, ecu_id)])
    | some _resolved =>
      if download_ok then
        match sd_file with
        | some data =>
          if data.length ≠ 0 then
            (true, { ctx1 with firmware_data := some data, firmware_size := data.length },
             [(OtaStatus.downloading, ecu_id)])
          else
            (false, { ctx1 with update_in_progress := false, status := OtaStatus.failure },
             [(OtaStatus.downloading, ecu_id), (OtaStatus.failure, ecu_id)])
        | none =>
          (false, { ctx1 with update_in_progress := false, status := OtaStatus.failure },
           [(OtaStatus.downloading, ecu_id), (OtaStatus.failure, ecu_id)])
      else
        (false, { ctx1 with update_in_progress := false, status := OtaStatus.failure },
         [(OtaStatus.downloading, ecu_id), (OtaStatus.failure, ecu_id)])

/-- The per-segment send loop of ota_module_distribute_firmware: true
when routing_module_send_message (oracle send_ok) accepts every
segment. -/
def otaDistributeLoop (send_ok : List Nat → Bool) : List (List Nat) → Bool
  | [] => true
  | s :: rest => if send_ok s then otaDistributeLoop send_ok rest else false

/-- Embedding of ota_module_distribute_firmware (ecu_id assumed
non-null).  With no segments prepared it refuses; otherwise it enters
DISTRIBUTING and notifies with no check of update_in_progress or of the
current state, sends each segment, and on any send failure sets FAILURE
and notifies.  The segment array is freed in either outcome (the none in
the third component). -/
def ota_module_distribute_firmware (ctx : OtaContext) (segments : Option (List (List Nat)))
    (ecu_id : String) (send_ok : List Nat → Bool) :
    Bool × OtaContext × Option (List (List Nat)) × List (OtaStatus × String) :=
  match segments with
  | none => (false, ctx, none, [])
  | some segs =>
    let ctx1 := { ctx with status := OtaStatus.distributing }
    if otaDistributeLoop send_ok segs then
      (true, ctx1, none, [(OtaStatus.distributing, ecu_id)])
    else
      (false, { ctx1 with status := OtaStatus.failure }, none,
       [(OtaStatus.distributing, ecu_id), (OtaStatus.failure, ecu_id)])

/-- Modelled from the spec: the body of the static helper ota_rollback
is not present under src (only its prototype and its callers are); per
the spec (rollback sets ROLLBACK and notifies) and the comment inside
ota_module_rollback_update, it sets the status to OTA_STATUS_ROLLBACK
and notifies the subscribers. -/
def ota_rollback (ctx : OtaContext) (ecu_id : String) :
    OtaContext × List (OtaStatus × String) :=
  ({ ctx with status := OtaStatus.rollback }, [(OtaStatus.rollback, ecu_id)])

/-- Embedding of ota_module_update_config: format the current OTA
configuration and write it to config.ini through the SD storage module
(oracle write_ok); the written key-value pairs are returned. -/
def ota_module_update_config (cfg : OtaConfig) (write_ok : Bool) :
    Bool × Option (List (String × String)) :=
  if write_ok then
    (true, some [
      ("OTA_FIRMWARE_VERSION_MONITOR", toString cfg.firmware_version_monitor),
      ("OTA_FIRMWARE_VERSION_ACCELERATION", toString cfg.firmware_version_acceleration),
      ("OTA_FIRMWARE_VERSION_STEERING", toString cfg.firmware_version_steering),
      ("OTA_FIRMWARE_VERSION_MOTOR", toString cfg.firmware_version_motor),
      ("OTA_FIRMWARE_VERSION_BRAKE", toString cfg.firmware_version_brake),
      ("MQTT_TOPIC_MONITOR", cfg.topic_monitor),
      ("MQTT_TOPIC_ACCELERATION", cfg.topic_acceleration),
      ("MQTT_TOPIC_STEERING", cfg.topic_steering),
      ("MQTT_TOPIC_MOTOR", cfg.topic_motor),
      ("MQTT_TOPIC_BRAKE", cfg.topic_brake),
      ("OTA_CHECK_INTERVAL_MS", toString cfg.check_interval_ms)])
  else (false, none)

/-- Embedding of ota_module_apply_update (ecu_id assumed non-null), with
one Boolean oracle per esp_ota step and one for the config.ini write.
It enters APPLYING and notifies with no check of update_in_progress; any
failing step sets FAILURE, notifies and triggers ota_rollback; on
success it sets SUCCESS, notifies, persists the configuration as it
stands through ota_module_update_config (whose failure only logs a
warning), frees the firmware buffer and clears update_in_progress.  No
field of the OTA configuration is modified anywhere on this path: the
returned configuration is the argument itself. -/
def ota_module_apply_update (cfg : OtaConfig) (ctx : OtaContext) (ecu_id : String)
    (partition_found begin_ok write_ok end_ok set_boot_ok config_write_ok : Bool) :
    Bool × OtaContext × OtaConfig × Option (List (String × String)) ×
      List (OtaStatus × String) :=
  let ctx1 := { ctx with status := OtaStatus.applying }
  let failAndRollback : Bool × OtaContext × OtaConfig × Option (List (String × String)) ×
      List (OtaStatus × String) :=
    let ctxf := { ctx1 with status := OtaStatus.failure }
    let rolled := ota_rollback ctxf ecu_id
    (false, rolled.1, cfg, none,
     [(OtaStatus.applying, ecu_id), (OtaStatus.failure, ecu_id)] ++ rolled.2)
  if ¬ partition_found then failAndRollback
  else if ¬ begin_ok then failAndRollback
  else if ¬ write_ok then failAndRollback
  else if ¬ end_ok then failAndRollback
  else if ¬ set_boot_ok then failAndRollback
  else
    let ctx2 := { ctx1 with status := OtaStatus.success }
    let saved := ota_module_update_config cfg config_write_ok
    (true, { ctx2 with firmware_data := none, update_in_progress := false }, cfg, saved.2,
     [(OtaStatus.applying, ecu_id), (OtaStatus.success, ecu_id)])

/-- Claim C1 fails on the code: an OTA run that ends in SUCCESS never
records the advertised version.  In the run below the advertised version
2 is observed for monitor_ecu (check_version reports the update
available), the pipeline completes, apply_update ends in SUCCESS, yet no
operation ever writes the advertised version into the OTA configuration:
update_config persists OTA_FIRMWARE_VERSION_MONITOR with value 1, the
previously installed version, and not the advertised 2. -/
theorem ota_success_keeps_old_installed_version_c1 :
    ota_module_check_version otaDefaultConfig ⟨OtaStatus.idle, "", 0, none, false⟩
        "monitor_ecu" 2 =
      (true, ⟨OtaStatus.update_available, "monitor_ecu", 0, none, false⟩,
       [(OtaStatus.update_available, "monitor_ecu")]) ∧
    ota_module_download_firmware otaDefaultConfig
        ⟨OtaStatus.update_available, "monitor_ecu", 0, none, false⟩ "monitor_ecu" true
        (some [9, 9, 9]) =
      (true, ⟨OtaStatus.downloading, "monitor_ecu", 3, some [9, 9, 9], true⟩,
       [(OtaStatus.downloading, "monitor_ecu")]) ∧
    ota_module_segment_firmware (some [9, 9, 9]) 3 = some [[9, 9, 9]] ∧
    ota_module_distribute_firmware
        ⟨OtaStatus.downloading, "monitor_ecu", 3, some [9, 9, 9], true⟩
        (some [[9, 9, 9]]) "monitor_ecu" (fun _ => true) =
      (true, ⟨OtaStatus.distributing, "monitor_ecu", 3, some [9, 9, 9], true⟩, none,
       [(OtaStatus.distributing, "monitor_ecu")]) ∧
    ota_module_apply_update otaDefaultConfig
        ⟨OtaStatus.distributing, "monitor_ecu", 3, some [9, 9, 9], true⟩ "monitor_ecu"
        true true true true true true =
      (true, ⟨OtaStatus.success, "monitor_ecu", 3, none, false⟩, otaDefaultConfig,
       (ota_module_update_config otaDefaultConfig true).2,
       [(OtaStatus.applying, "monitor_ecu"), (OtaStatus.success, "monitor_ecu")]) ∧
    ("OTA_FIRMWARE_VERSION_MONITOR", "1") ∈
      ((ota_module_update_config otaDefaultConfig true).2.getD []) ∧
    ("OTA_FIRMWARE_VERSION_MONITOR", "2") ∉
      ((ota_module_update_config otaDefaultConfig true).2.getD []) ∧
    otaDefaultConfig.firmware_version_monitor = 1 ∧ (1 : Nat) ≠ 2 := by
  refine ⟨rfl, rfl, rfl, rfl, rfl, by decide, by decide, rfl, by decide⟩

/-- Claim C4 amended: while an update is in progress,
ota_module_download_firmware refuses with false and leaves the OTA
context unchanged, notifying nothing; the other pipeline steps carry no
such guard (the counterexample shows distribute proceeding). -/
theorem ota_download_refused_while_in_progress_c4 :
    ∀ (cfg : OtaConfig) (ctx : OtaContext) (ecu_id : String) (download_ok : Bool)
      (sd_file : Option (List Nat)),
      ctx.update_in_progress = true →
      ota_module_download_firmware cfg ctx ecu_id download_ok sd_file = (false, ctx, []) := by
  intro cfg ctx ecu_id download_ok sd_file h
  unfold ota_module_download_firmware
  rw [h]
  simp

/-- Concrete witness for the amended claim C4. -/
theorem ota_download_refused_while_in_progress_c4_witness :
    ota_module_download_firmware otaDefaultConfig
        ⟨OtaStatus.downloading, "monitor_ecu", 0, none, true⟩ "monitor_ecu" true
        (some [1]) =
      (false, ⟨OtaStatus.downloading, "monitor_ecu", 0, none, true⟩, []) :=
  ota_download_refused_while_in_progress_c4 otaDefaultConfig
    ⟨OtaStatus.downloading, "monitor_ecu", 0, none, true⟩ "monitor_ecu" true (some [1]) rfl

/-- Counterexample to claim C4 as stated: with an update alive
(update_in_progress set, state DOWNLOADING), distribute is not refused:
it returns true, mutates the status to DISTRIBUTING and notifies,
instead of a local reject with no side effects on the update in
progress. -/
theorem ota_distribute_not_refused_c4_counterexample :
    ota_module_distribute_firmware
        ⟨OtaStatus.downloading, "motor_control_ecu", 1, some [7], true⟩
        (some [[7]]) "motor_control_ecu" (fun _ => true) =
      (true, ⟨OtaStatus.distributing, "motor_control_ecu", 1, some [7], true⟩, none,
       [(OtaStatus.distributing, "motor_control_ecu")]) := rfl

/-! ## CAN transport: asynchronous TX queue and retry (can_esp_lib.c) -/

def CAN_ESP_MAX_RETRANSMISSIONS : Nat := 3

/-- A message of the TX queue (CanEspMessage_t). -/
structure CanEspMessage where
  id : Nat
  length : Nat
  data : List Nat
  retry_count : Nat
deriving DecidableEq, Repr

/-- The latency metrics (CanEspLatencyMetrics_t). -/
structure CanEspLatencyMetrics where
  num_samples : Nat
  total_latency : Int
  min_latency : Int
  max_latency : Int
deriving DecidableEq, Repr

/-- The mutable state of the asynchronous transmit path: the TX queue
with its front at the head, the diagnostic counters, the latency
metrics, the bus-busy accumulator and the record of transmit-callback
invocations. -/
structure CanTxState where
  txQueue : List CanEspMessage
  totalRetransmissions : Nat
  totalCollisions : Nat
  totalTransmissionAttempts : Nat
  latencyMetrics : CanEspLatencyMetrics
  busLoadTotalTime : Int
  tx_callbacks : List (Nat × CanEspStatus)
deriving DecidableEq, Repr

/-- The initial transmit state: empty queue, zeroed counters, and the
latency metrics static initializer 0, 0, INT64_MAX, 0. -/
def canTxInitialState : CanTxState :=
  ⟨[], 0, 0, 0, ⟨0, 0, 9223372036854775807, 0⟩, 0, []⟩

/-- Embedding of CAN_ESP_EnqueueMessage (message assumed non-null, queue
created): the message is copied, its retry_count is set to 0
unconditionally, and it is put at the front when high_priority is set,
at the back otherwise. -/
def CAN_ESP_EnqueueMessage (st : CanTxState) (msg : CanEspMessage) (high_priority : Bool) :
    CanTxState :=
  let local_msg := { msg with retry_count := 0 }
  if high_priority then { st with txQueue := local_msg :: st.txQueue }
  else { st with txQueue := st.txQueue ++ [local_msg] }

/-- Embedding of one iteration of CAN_ESP_TransmitTask: dequeue a frame,
count the attempt, hand it to the driver (oracle transmit_ok, with the
measured latency as second oracle).  On failure with retry_count below
the limit, bump retry_count and the retransmission and collision
counters, back off, and re-enqueue to the front through
CAN_ESP_EnqueueMessage; on terminal failure invoke the transmit callback
with a transmit error; on success update the latency metrics and the
bus-busy time and invoke the callback with OK. -/
def CAN_ESP_TransmitTask_iteration (st : CanTxState) (transmit_ok : Bool) (latency : Int) :
    CanTxState :=
  match st.txQueue with
  | [] => st
  | msg :: rest =>
    let st1 := { st with
                 txQueue := rest,
                 totalTransmissionAttempts := st.totalTransmissionAttempts + 1 }
    if !transmit_ok then
      if msg.retry_count < CAN_ESP_MAX_RETRANSMISSIONS then
        let msg2 := { msg with retry_count := msg.retry_count + 1 }
        let st2 := { st1 with
                     totalRetransmissions := st1.totalRetransmissions + 1,
                     totalCollisions := st1.totalCollisions + 1 }
        CAN_ESP_EnqueueMessage st2 msg2 true
      else
        { st1 with tx_callbacks := st1.tx_callbacks ++ [(msg.id, CanEspStatus.errTransmit)] }
    else
      let lm := st1.latencyMetrics
      let lm2 : CanEspLatencyMetrics :=
        { num_samples := lm.num_samples + 1,
          total_latency := lm.total_latency + latency,
          min_latency := if latency < lm.min_latency then latency else lm.min_latency,
          max_latency := if latency > lm.max_latency then latency else lm.max_latency }
      { st1 with
        latencyMetrics := lm2,
        busLoadTotalTime := st1.busLoadTotalTime + latency,
        tx_callbacks := st1.tx_callbacks ++ [(msg.id, CanEspStatus.ok)] }

/-- Several iterations of the transmit task, one oracle pair each. -/
def CAN_ESP_TransmitTask_run (st : CanTxState) (oracle : List (Bool × Int)) : CanTxState :=
  oracle.foldl (fun s o => CAN_ESP_TransmitTask_iteration s o.1 o.2) st

/-- Claim C2 fails on the code: a frame whose transmission fails is
never dropped, because the re-enqueue goes through
CAN_ESP_EnqueueMessage which resets retry_count to 0.  Starting from one
enqueued frame and a driver that fails 4 straight times (one more than
CAN_ESP_MAX_RETRANSMISSIONS = 3), the frame is still on the queue with
retry_count 0, the transmit callback has never been invoked with a
transmit error, and 4 retransmissions were counted; the claim instead
requires the frame to be dropped and the callback invoked after at most
3 retries.  (The queue invariant retry_count at most MAX holds, but only
because the counter is stuck at 0.) -/
theorem canEsp_retry_never_drops_c2 :
    CAN_ESP_TransmitTask_run
      (CAN_ESP_EnqueueMessage canTxInitialState ⟨291, 2, [1, 2], 0⟩ false)
      (List.replicate 4 (false, 0)) =
    ⟨[⟨291, 2, [1, 2], 0⟩], 4, 4, 4, ⟨0, 0, 9223372036854775807, 0⟩, 0, []⟩ := by
  rfl

/-! ## Alert sink (alert_module.c) -/

def ALERT_HISTORY_SIZE : Nat := 100

/-- AlertLevel_t. -/
inductive AlertLevel where
  | info
  | warning
  | critical
deriving DecidableEq, Repr

/-- AlertData_t. -/
structure AlertData where
  timestamp : Nat
  level : AlertLevel
  message : String
deriving DecidableEq, Repr

/-- AlertThresholds_t with its documented defaults in the initializer of
alert_thresholds. -/
structure AlertThresholds where
  tx_error_threshold : Nat
  rx_error_threshold : Nat
  bus_load_threshold : Nat
  retransmission_threshold : Nat
deriving DecidableEq, Repr

/-- The module state: the 100-entry alert ring with its index, the
thresholds, and whether a notification callback has been stored by
alert_module_register_notification_callback. -/
structure AlertModuleState where
  alert_history : List AlertData
  alert_index : Nat
  alert_thresholds : AlertThresholds
  notification_callback_registered : Bool
deriving DecidableEq, Repr

/-- The observable side effects of the alert module beyond its own
state: a forward to the logger alert channel, or an invocation of the
registered notification callback. -/
inductive AlertEffect where
  | logger_alert (level : AlertLevel) (message : String)
  | notification_callback_invoked (level : AlertLevel) (message : String)
deriving DecidableEq, Repr

/-- Embedding of the static register_alert: a null message is ignored;
otherwise the ring entry at alert_index is written with the RTC
timestamp, the alert is forwarded to logger_module_log_alert, and the
index advances modulo the ring size.  The stored notification callback
is not consulted. -/
def register_alert (st : AlertModuleState) (rtc_now : Nat) (level : AlertLevel)
    (message : Option String) : AlertModuleState × List AlertEffect :=
  match message with
  | none => (st, [])
  | some msg =>
    ({ st with alert_history := st.alert_history.set st.alert_index ⟨rtc_now, level, msg⟩,
               alert_index := (st.alert_index + 1) % ALERT_HISTORY_SIZE },
     [AlertEffect.logger_alert level msg])

/-- Embedding of alert_module_register_notification_callback: only
stores the callback pointer. -/
def alert_module_register_notification_callback (st : AlertModuleState) : AlertModuleState :=
  { st with notification_callback_registered := true }

/-- CanEspDiagnostics_t as consumed by the alert module. -/
structure AlertCanDiagnostics where
  tx_error_counter : Nat
  rx_error_counter : Nat
  bus_off : Bool
deriving DecidableEq, Repr

/-- The fields of DiagnosisData_t that alert_module_check_conditions
reads. -/
structure DiagnosisData where
  can_diag : AlertCanDiagnostics
  bus_load : Nat
  retransmission_count : Nat
deriving DecidableEq, Repr

/-- Embedding of alert_module_check_conditions: a null sample is
ignored; otherwise at most one alert per rule fires, in order bus-off
(critical), TX or RX errors over threshold (warning), bus load over
threshold (warning), retransmissions over threshold (warning). -/
def alert_module_check_conditions (st : AlertModuleState) (rtc_now : Nat)
    (diag : Option DiagnosisData) : AlertModuleState × List AlertEffect :=
  match diag with
  | none => (st, [])
  | some d =>
    let r1 := if d.can_diag.bus_off then
        register_alert st rtc_now AlertLevel.critical (some "Estado Bus-Off detectado!")
      else (st, [])
    let r2 := if d.can_diag.tx_error_counter > st.alert_thresholds.tx_error_threshold ∨
          d.can_diag.rx_error_counter > st.alert_thresholds.rx_error_threshold then
        register_alert r1.1 rtc_now AlertLevel.warning (some "Alta taxa de erros na rede CAN!")
      else (r1.1, [])
    let r3 := if d.bus_load > st.alert_thresholds.bus_load_threshold then
        register_alert r2.1 rtc_now AlertLevel.warning
          (some "Carga do barramento CAN acima do limiar!")
      else (r2.1, [])
    let r4 := if d.retransmission_count > st.alert_thresholds.retransmission_threshold then
        register_alert r3.1 rtc_now AlertLevel.warning
          (some "Alta taxa de retransmissoes na rede CAN!")
      else (r3.1, [])
    (r4.1, r1.2 ++ r2.2 ++ r3.2 ++ r4.2)

/-- Discriminator for the effects an alert-module operation produced. -/
def isLoggerAlertEffect : AlertEffect → Bool
  | AlertEffect.logger_alert _ _ => true
  | AlertEffect.notification_callback_invoked _ _ => false

lemma register_alert_effects_logger (st : AlertModuleState) (rtc_now : Nat)
    (level : AlertLevel) (message : Option String) :
    (register_alert st rtc_now level message).2.all isLoggerAlertEffect = true := by
  cases message with
  | none => rfl
  | some msg => rfl

/-- Claim C10: no alert-module operation ever invokes the stored
notification callback.  register_alert on a non-null message writes
exactly one ring entry at alert_index and produces exactly one effect, a
forward to the logger alert channel; and every effect produced by
register_alert or by alert_module_check_conditions, whatever the state
(callback registered or not), the timestamp, the thresholds and the
sample, is a logger forward and never a notification callback
invocation. -/
theorem alert_notification_callback_never_invoked_c10 :
    (∀ (st : AlertModuleState) (rtc_now : Nat) (level : AlertLevel) (msg : String),
      register_alert st rtc_now level (some msg) =
        ({ st with alert_history := st.alert_history.set st.alert_index ⟨rtc_now, level, msg⟩,
                   alert_index := (st.alert_index + 1) % ALERT_HISTORY_SIZE },
         [AlertEffect.logger_alert level msg])) ∧
    (∀ (st : AlertModuleState) (rtc_now : Nat) (level : AlertLevel) (message : Option String),
      (register_alert st rtc_now level message).2.all isLoggerAlertEffect = true) ∧
    (∀ (st : AlertModuleState) (rtc_now : Nat) (diag : Option DiagnosisData),
      (alert_module_check_conditions st rtc_now diag).2.all isLoggerAlertEffect = true) := by
  refine ⟨fun st rtc_now level msg => rfl, register_alert_effects_logger, ?_⟩
  intro st rtc_now diag
  cases diag with
  | none => rfl
  | some d =>
    unfold alert_module_check_conditions
    simp only [List.all_append, Bool.and_eq_true]
    refine ⟨⟨⟨?_, ?_⟩, ?_⟩, ?_⟩ <;>
      first
        | (split <;> simp [register_alert_effects_logger])
